import Mathlib

/-!
Shallow embedding of the answer-extraction pipeline of
`causeofwhy/answer_engine.py` (class `AnswerEngine`, class `Answer`).

External collaborators (the IR index, the tokenizer/regularizer, the
part-of-speech tagger, the WordNet knowledge base and the `Page` document
object) are modelled as record fields holding pure functions, matching the
call-boundary contracts the module relies on.  Relatedness scores are
modelled as rationals; the `lch_similarity` call, which can raise for
incomparable senses, is modelled as an `Option` result where `none` is the
raised exception.
-/

/-- A WordNet sense identifier (a synset). Kept abstract as a string. -/
abbrev Sense := String

/-- The coarse WordNet part-of-speech categories `wordnet.NOUN`,
`wordnet.VERB`, `wordnet.ADJ`, `wordnet.ADV` used by `_analyze_query`. -/
inductive WNPos
  | noun
  | verb
  | adj
  | adv
deriving DecidableEq, Repr

/-- The external collaborators consumed by the engine: the tokenizer and
regularizer from `indexer`, `nltk.pos_tag`, and the WordNet knowledge base. -/
structure Env where
  /-- Token sequence of `indexer.tokenizer.tokenize`. -/
  tokenize : String → List String
  /-- Normalization of `indexer.regularize`, applied to queries and
  sentence tokens alike. -/
  regularize : List String → List String
  /-- The external tagger `nltk.pos_tag`: one (word, raw label) pair per
  token. -/
  pos_tag : List String → List (String × String)
  /-- The filtered sense lookup `wordnet.synsets(word, pos=p)`. -/
  synsetsPos : String → WNPos → List Sense
  /-- The unfiltered sense lookup `wordnet.synsets(word)`. -/
  synsets : String → List Sense
  /-- The pairwise score `net1.lch_similarity(net2)`: `none` models the
  exception raised on incomparable senses. -/
  lch_similarity : Sense → Sense → Option ℚ
  /-- The pinned canonical sense `wordnet.synset("cause.v.01")`. -/
  cause_v_01 : Sense
  /-- The in-place text cleanup performed by `page.preprocess()`. -/
  preprocessText : String → String
  /-- The sentence segmentation performed by `page.tokenize_sentences()`:
  an ordered list of sentences, each an ordered token list, read off the
  current page text. -/
  segment : String → List (List String)

/-- A candidate document (`Page` object) as the engine sees it: fetched by
id, mutated in place with a similarity score and, after analysis, an
ordered sentence list. -/
structure Page where
  id : Nat
  text : String
  cosine_sim : Option ℚ
  sentences : List (List String)
deriving DecidableEq, Repr

/-- The IR index handle: `index.ranked` and `index.get_page`. -/
structure Index where
  /-- Ranked (page id, similarity) pairs, descending by similarity. -/
  ranked : List String → List (Nat × ℚ)
  /-- Fetch the Page objects for a list of Page ids. -/
  get_page : List Nat → List Page

/-- A single extracted answer: the source page together with the matched
sentence text (tokens joined by single spaces). -/
structure Answer where
  page : Page
  text : String
deriving DecidableEq, Repr

/-! ### The part-of-speech dictionary of `_analyze_query`

The source builds a Python dict literal whose keys are the booleans
`pos.startswith("N")`, `pos.startswith("V")`, `pos.startswith("J")`,
`pos.startswith("R")` and then calls `.get(pos, None)` with the raw tag
string `pos` as the lookup key.  We model Python dict values that can be
keys here (booleans from the literal, the string used for the lookup), a
dict literal with later duplicate keys overwriting earlier ones, and the
fact that in Python a string never compares equal to a boolean. -/

/-- A Python value usable as a key in the `_analyze_query` dict literal:
either a boolean (the `startswith` results) or a string (the raw tag). -/
inductive PyKey
  | pybool (b : Bool)
  | pystr (s : String)
deriving DecidableEq, Repr

/-- Python equality between the keys: booleans compare by value, strings
compare by value, and a string is never equal to a boolean. -/
def pyKeyEq : PyKey → PyKey → Bool
  | PyKey.pybool b1, PyKey.pybool b2 => b1 == b2
  | PyKey.pystr s1, PyKey.pystr s2 => s1 == s2
  | _, _ => false

/-- Insert one binding into a Python dict, overwriting an existing equal
key (the semantics of a duplicate key in a dict literal). -/
def dictInsert (d : List (PyKey × WNPos)) (k : PyKey) (v : WNPos) :
    List (PyKey × WNPos) :=
  if d.any (fun kv => pyKeyEq kv.1 k) then
    d.map (fun kv => if pyKeyEq kv.1 k then (kv.1, v) else kv)
  else
    d ++ [(k, v)]

/-- Build a Python dict from a literal, inserting bindings left to right. -/
def dictOfList (l : List (PyKey × WNPos)) : List (PyKey × WNPos) :=
  l.foldl (fun d kv => dictInsert d kv.1 kv.2) []

/-- Python `d.get(k, None)`: the first binding whose key equals `k`. -/
def dictGet (d : List (PyKey × WNPos)) (k : PyKey) : Option WNPos :=
  match d.find? (fun kv => pyKeyEq kv.1 k) with
  | some kv => some kv.2
  | none => none

/-- The category computed for a raw tag by `_analyze_query`: the dict
literal keyed by the `startswith` booleans, looked up with the raw tag
string itself, exactly as in the source. -/
def posCoarse (pos : String) : Option WNPos :=
  dictGet
    (dictOfList
      [(PyKey.pybool (pos.startsWith "N"), WNPos.noun),
       (PyKey.pybool (pos.startsWith "V"), WNPos.verb),
       (PyKey.pybool (pos.startsWith "J"), WNPos.adj),
       (PyKey.pybool (pos.startsWith "R"), WNPos.adv)])
    (PyKey.pystr pos)

/-! ### Query analysis (`_analyze_query`) -/

/-- The senses attached to one tagged (word, raw label) pair: the filtered
lookup when the computed category is truthy, the unfiltered lookup when it
is `None`. -/
def analyzeToken (env : Env) (word pos : String) : String × List Sense :=
  match posCoarse pos with
  | some p => (word, env.synsetsPos word p)
  | none => (word, env.synsets word)

/-- The tagged query built by `_analyze_query`: one (word, senses) pair per
tagged token, then the special hidden term `("cause", [cause.v.01])`. -/
def analyze_query (env : Env) (ir_query : List String) :
    List (String × List Sense) :=
  (env.pos_tag ir_query).map (fun wp => analyzeToken env wp.1 wp.2)
    ++ [("cause", [env.cause_v_01])]

/-! ### Sentence matching (`_extract_answers.sentence_matches`) -/

/-- The comparison of one pairwise score against the threshold inside
`related`: a raised exception (`none`) falls through to the next pair,
otherwise the score is compared with `lch >= self.lch`. -/
def scoreOk (thr : ℚ) : Option ℚ → Bool
  | none => false
  | some v => decide (thr ≤ v)

/-- The nested loop of `related(synsets, word2)`: some sense of the query
term and some unfiltered sense of the sentence word reach the threshold. -/
def related (env : Env) (thr : ℚ) (synsets : List Sense) (word2 : String) :
    Bool :=
  synsets.any (fun net1 =>
    (env.synsets word2).any (fun net2 =>
      scoreOk thr (env.lch_similarity net1 net2)))

/-- The per-term inner loop of `sentence_matches`: some regularized
sentence token equals the term or is related to its senses. -/
def term_satisfied (env : Env) (thr : ℚ) (ts : String × List Sense)
    (sentence : List String) : Bool :=
  (env.regularize sentence).any (fun page_term =>
    ts.1 == page_term || related env thr ts.2 page_term)

/-- `sentence_matches(sentence)`: every term of the tagged query is
satisfied by the sentence. -/
def sentence_matches (env : Env) (thr : ℚ)
    (tagged : List (String × List Sense)) (sentence : List String) : Bool :=
  tagged.all (fun ts => term_satisfied env thr ts sentence)

/-! ### Answer extraction (`_extract_answers`) -/

/-- The per-page loop of `_extract_answers`: `page_windows` collects one
Answer per matching sentence, in sentence order. -/
def pageAnswers (env : Env) (thr : ℚ) (tagged : List (String × List Sense))
    (page : Page) : List Answer :=
  page.sentences.foldl
    (fun pw sentence =>
      if sentence_matches env thr tagged sentence then
        pw ++ [Answer.mk page (String.intercalate " " sentence)]
      else pw)
    []

/-- The outer loop of `_extract_answers`: `answers` is extended with each
page window, in page (rank) order. -/
def extract_answers (env : Env) (thr : ℚ)
    (tagged : List (String × List Sense)) (pages : List Page) : List Answer :=
  pages.foldl (fun answers page => answers ++ pageAnswers env thr tagged page)
    []

/-! ### Page analysis (`_analyze_pages`) and the engine -/

/-- One pass of `page.preprocess(); page.tokenize_sentences()`: the text is
cleaned in place, then the sentence list is read off the cleaned text. -/
def pageAnalyze (env : Env) (p : Page) : Page :=
  let t := env.preprocessText p.text
  { p with text := t, sentences := env.segment t }

/-- The failure of `page_ids, similarity = zip(*page_sim)` on an empty
window, together with the descriptive error the specification asks
implementations to raise instead.  The second constructor is modelled from
the spec: the source never raises it. -/
inductive InitError
  /-- The unspecific Python ValueError raised when unpacking `zip(*[])`. -/
  | valueErrorUnpack
  /-- Modelled from the spec: a descriptive, typed error naming the invalid
  pagination request ("pagination window exceeds available ranked
  results"); for comparison only, absent from the source. -/
  | paginationWindowExceedsAvailable
deriving DecidableEq, Repr

/-- Python slicing `l[start:stop]` for the non-negative indices used by the
constructor. -/
def pySlice (l : List α) (start stop : Nat) : List α :=
  (l.take stop).drop start

/-- The windowed (page id, similarity) list `page_sim[start:num_top]`
computed by the constructor. -/
def rankedWindow (index : Index) (ir_query : List String)
    (start num_top : Nat) : List (Nat × ℚ) :=
  pySlice (index.ranked ir_query) start num_top

/-- The in-place loop `for page, sim in zip(self.pages, similarity)`:
pages beyond the similarity list are left untouched. -/
def setSims : List Page → List ℚ → List Page
  | [], _ => []
  | ps, [] => ps
  | p :: ps, s :: ss => { p with cosine_sim := some s } :: setSims ps ss

/-- The engine state: the attributes of an `AnswerEngine` instance. -/
structure AnswerEngine where
  query : String
  start : Nat
  num_top : Nat
  lch : ℚ
  answers : Option (List Answer)
  ir_query : List String
  ir_query_tagged : Option (List (String × List Sense))
  num_pages : Nat
  pages : List Page
deriving DecidableEq, Repr

/-- The constructor `AnswerEngine.__init__`: regularize the query, rank,
slice the ranked list with `page_sim[start:num_top]`, unpack the pairs
(raising on an empty window), fetch the pages and attach the scores. -/
def AnswerEngine.init (env : Env) (index : Index) (query : String)
    (start num_top : Nat) (lch : ℚ) : Except InitError AnswerEngine :=
  match rankedWindow index (env.regularize (env.tokenize query)) start
      num_top with
  | [] => Except.error InitError.valueErrorUnpack
  | w :: ws =>
      Except.ok
        { query := query, start := start, num_top := num_top, lch := lch,
          answers := none,
          ir_query := env.regularize (env.tokenize query),
          ir_query_tagged := none,
          num_pages := (index.ranked (env.regularize (env.tokenize
            query))).length,
          pages := setSims (index.get_page ((w :: ws).map Prod.fst))
            ((w :: ws).map Prod.snd) }

/-- The method `get_answers()`: analyze the query, analyze the pages in
place, extract the answers, cache and return them. -/
def AnswerEngine.get_answers (env : Env) (e : AnswerEngine) :
    AnswerEngine × List Answer :=
  let tagged := analyze_query env e.ir_query
  let pages := e.pages.map (pageAnalyze env)
  let ans := extract_answers env e.lch tagged pages
  ({ e with ir_query_tagged := some tagged, pages := pages,
            answers := some ans },
   ans)

/-- The module-level convenience function `get_answers(ans_eng)` used for
multiprocessing: it forwards to the bound method. -/
def get_answers_free (env : Env) (ans_eng : AnswerEngine) : List Answer :=
  (AnswerEngine.get_answers env ans_eng).2

/-! ### Characterization lemmas for the matching core -/

/-- The threshold test succeeds exactly on a successfully computed score at
or above the threshold. -/
theorem scoreOk_iff (thr : ℚ) (o : Option ℚ) :
    scoreOk thr o = true ↔ ∃ v, o = some v ∧ thr ≤ v := by
  cases o <;> simp [scoreOk]

/-- Characterization of `related`: only successfully computed pair scores
can make it true. -/
theorem related_char (env : Env) (thr : ℚ) (synsets : List Sense)
    (word2 : String) :
    related env thr synsets word2 = true ↔
      ∃ net1 ∈ synsets, ∃ net2 ∈ env.synsets word2,
        ∃ v, env.lch_similarity net1 net2 = some v ∧ thr ≤ v := by
  simp [related, List.any_eq_true, scoreOk_iff]

/-- Characterization of the per-term loop: some regularized sentence token
equals the term exactly or is related to one of its senses. -/
theorem term_satisfied_char (env : Env) (thr : ℚ) (ts : String × List Sense)
    (sentence : List String) :
    term_satisfied env thr ts sentence = true ↔
      ∃ tok ∈ env.regularize sentence,
        ts.1 = tok ∨ ∃ s1 ∈ ts.2, ∃ s2 ∈ env.synsets tok,
          ∃ v, env.lch_similarity s1 s2 = some v ∧ thr ≤ v := by
  simp [term_satisfied, List.any_eq_true, related_char]

/-- C1: a sentence matches a tagged query (the analyzed query, with its
implicit causal term) if and only if every term of the tagged query is
satisfied, where a term is satisfied exactly when some regularized sentence
token equals it or some pair of senses from the term and that token reaches
the threshold; a single unsatisfied term makes the decision false. -/
theorem sentence_matches_iff_every_term (env : Env) (thr : ℚ)
    (q sentence : List String) :
    sentence_matches env thr (analyze_query env q) sentence = true ↔
      ∀ ts ∈ analyze_query env q, ∃ tok ∈ env.regularize sentence,
        ts.1 = tok ∨ ∃ s1 ∈ ts.2, ∃ s2 ∈ env.synsets tok,
          ∃ v, env.lch_similarity s1 s2 = some v ∧ thr ≤ v := by
  simp [sentence_matches, List.all_eq_true, term_satisfied_char]

/-- C4: a failing pairwise relatedness computation (`none`) is treated as
not related for that pair alone; `related` is true exactly when some pair
computes successfully to a score at or above the threshold, so failing
pairs never abort the evaluation of the remaining pairs and no failure
escapes the match decision. -/
theorem related_failure_is_negative_signal (env : Env) (thr : ℚ)
    (synsets : List Sense) (word2 : String) :
    related env thr synsets word2 = true ↔
      ∃ net1 ∈ synsets, ∃ net2 ∈ env.synsets word2,
        ∃ v, env.lch_similarity net1 net2 = some v ∧ thr ≤ v :=
  related_char env thr synsets word2

/-- C5: a term whose surface form occurs among the regularized sentence
tokens is satisfied, whatever the threshold. -/
theorem exact_match_satisfies_term (env : Env) (thr : ℚ)
    (ts : String × List Sense) (sentence : List String)
    (h : ts.1 ∈ env.regularize sentence) :
    term_satisfied env thr ts sentence = true := by
  rw [term_satisfied_char]
  exact ⟨ts.1, h, Or.inl rfl⟩

/-- A deterministic sample environment used to instantiate the theorems on
concrete inputs. -/
def sampleEnv : Env where
  tokenize s := [s]
  regularize ts := ts
  pos_tag ts := ts.map (fun t => (t, "NN"))
  synsetsPos w _ := [w ++ ".n.01"]
  synsets w := [w ++ ".x.01"]
  lch_similarity _ _ := none
  cause_v_01 := "cause.v.01"
  preprocessText s := s
  segment s := [[s]]

/-- Witness for C5 at a concrete term, threshold and sentence. -/
theorem exact_match_satisfies_term_witness :
    ("war" : String) ∈ sampleEnv.regularize ["the", "war"] ∧
      term_satisfied sampleEnv 100 ("war", []) ["the", "war"] = true :=
  ⟨by decide,
   exact_match_satisfies_term sampleEnv 100 ("war", []) ["the", "war"]
     (by decide)⟩

/-! ### Query analysis theorems -/

/-- C7: the tagged query is never empty, always ends with the synthetic
causal term `("cause", [cause.v.01])`, and for an empty query (a tagger
that returns no tags for no tokens) it consists of exactly that entry. -/
theorem analyze_query_causal_term (env : Env) (q : List String)
    (hnil : env.pos_tag [] = []) :
    analyze_query env q ≠ [] ∧
      (analyze_query env q).getLast? = some ("cause", [env.cause_v_01]) ∧
      analyze_query env [] = [("cause", [env.cause_v_01])] := by
  refine ⟨?_, ?_, ?_⟩
  · simp [analyze_query]
  · simp [analyze_query, List.getLast?_concat]
  · simp [analyze_query, hnil]

/-- Witness for C7: the causal term facts at a concrete query and the
deterministic sample environment. -/
theorem analyze_query_causal_term_witness :
    analyze_query sampleEnv ["war"] ≠ [] ∧
      (analyze_query sampleEnv ["war"]).getLast? =
        some ("cause", [sampleEnv.cause_v_01]) ∧
      analyze_query sampleEnv [] = [("cause", [sampleEnv.cause_v_01])] :=
  analyze_query_causal_term sampleEnv ["war"] rfl

/-- Inserting a boolean-keyed binding into a boolean-keyed dict keeps
every key boolean. -/
theorem dictInsert_keys (d : List (PyKey × WNPos)) (k : PyKey) (v : WNPos)
    (hd : ∀ kv ∈ d, ∃ b, kv.1 = PyKey.pybool b)
    (hk : ∃ b, k = PyKey.pybool b) :
    ∀ kv ∈ dictInsert d k v, ∃ b, kv.1 = PyKey.pybool b := by
  intro kv hkv
  unfold dictInsert at hkv
  by_cases h : d.any (fun kv => pyKeyEq kv.1 k) = true
  · rw [if_pos h] at hkv
    obtain ⟨kv0, hkv0, heq⟩ := List.mem_map.mp hkv
    obtain ⟨b, hb⟩ := hd kv0 hkv0
    cases h2 : pyKeyEq kv0.1 k <;> simp [h2] at heq <;>
      exact ⟨b, by rw [← heq, hb]⟩
  · rw [if_neg h] at hkv
    rcases List.mem_append.mp hkv with h1 | h1
    · exact hd kv h1
    · obtain ⟨b, hb⟩ := hk
      simp at h1
      exact ⟨b, by rw [h1, hb]⟩

/-- Folding boolean-keyed bindings into a boolean-keyed dict keeps every
key boolean. -/
theorem foldl_dictInsert_keys (l : List (PyKey × WNPos)) :
    ∀ d : List (PyKey × WNPos),
      (∀ kv ∈ d, ∃ b, kv.1 = PyKey.pybool b) →
      (∀ kv ∈ l, ∃ b, kv.1 = PyKey.pybool b) →
      ∀ kv ∈ l.foldl (fun d kv => dictInsert d kv.1 kv.2) d,
        ∃ b, kv.1 = PyKey.pybool b := by
  induction l with
  | nil => exact fun d hd _ kv hkv => hd kv hkv
  | cons x xs ih =>
      intro d hd hl kv hkv
      simp only [List.foldl_cons] at hkv
      exact ih (dictInsert d x.1 x.2)
        (dictInsert_keys d x.1 x.2 hd
          ((hl x (List.mem_cons_self x xs)).imp (fun b hb => hb)))
        (fun kv h => hl kv (List.mem_cons_of_mem x h)) kv hkv

/-- Looking a string key up in a dict all of whose keys are booleans finds
nothing: in Python a string never compares equal to a boolean. -/
theorem dictGet_pystr_none (d : List (PyKey × WNPos))
    (hd : ∀ kv ∈ d, ∃ b, kv.1 = PyKey.pybool b) (s : String) :
    dictGet d (PyKey.pystr s) = none := by
  have h : d.find? (fun kv => pyKeyEq kv.1 (PyKey.pystr s)) = none := by
    rw [List.find?_eq_none]
    intro kv hkv
    obtain ⟨b, hb⟩ := hd kv hkv
    simp [hb, pyKeyEq]
  simp [dictGet, h]

/-- The category lookup of `_analyze_query` yields None for every raw tag:
the dict literal is keyed by booleans and looked up with the tag string. -/
theorem posCoarse_none (pos : String) : posCoarse pos = none := by
  unfold posCoarse dictOfList
  apply dictGet_pystr_none
  apply foldl_dictInsert_keys _ [] (by simp)
  intro kv hkv
  simp only [List.mem_cons, List.not_mem_nil, or_false] at hkv
  rcases hkv with h | h | h | h <;> exact ⟨_, by rw [h]⟩

/-- C3 (code-bug evidence): the computed category is None for every tag, so
the filtered branch of `_analyze_query` is dead and even a token tagged NN
gets the unfiltered sense set (the filtered and unfiltered lookups of the
sample environment differ, and the unfiltered one is taken). -/
theorem analyze_query_pos_filter_dead :
    (∀ pos : String, posCoarse pos = none) ∧
      analyze_query sampleEnv ["war"] =
        [("war", ["war.x.01"]), ("cause", ["cause.v.01"])] ∧
      sampleEnv.synsetsPos "war" WNPos.noun ≠ sampleEnv.synsets "war" := by
  refine ⟨posCoarse_none, ?_, by decide⟩
  simp [analyze_query, sampleEnv, analyzeToken, posCoarse_none]

/-! ### Constructor and pagination theorems -/

/-- C2: element i of the analyzed window is element start+i of the ranked
list as long as start+i stays below num_top, so num_top is an absolute end
index of the slice, not a width added to start; and whenever construction
succeeds, the pages of the engine are exactly the fetched pages of that
window with its similarity scores attached. -/
theorem constructor_window_absolute_end (env : Env) (index : Index)
    (query : String) (start num_top : Nat) (lch : ℚ) :
    (∀ i : Nat,
        (rankedWindow index (env.regularize (env.tokenize query)) start
            num_top)[i]? =
          if start + i < num_top then
            (index.ranked (env.regularize (env.tokenize query)))[start + i]?
          else none) ∧
      ∀ e, AnswerEngine.init env index query start num_top lch =
          Except.ok e →
        e.pages = setSims
          (index.get_page
            ((rankedWindow index (env.regularize (env.tokenize query)) start
              num_top).map Prod.fst))
          ((rankedWindow index (env.regularize (env.tokenize query)) start
            num_top).map Prod.snd) := by
  constructor
  · intro i
    rw [rankedWindow, pySlice, List.getElem?_drop, List.getElem?_take]
  · intro e he
    unfold AnswerEngine.init at he
    cases hw : rankedWindow index (env.regularize (env.tokenize query)) start
        num_top with
    | nil => rw [hw] at he; exact absurd he (by simp)
    | cons w ws =>
        rw [hw] at he
        simp only [Except.ok.injEq] at he
        rw [← he]

/-- The ranked list returned by the concrete index used to instantiate the
pagination theorems: ten documents, descending similarity. -/
def rankedTen : List (Nat × ℚ) :=
  [(0, 10), (1, 9), (2, 8), (3, 7), (4, 6), (5, 5), (6, 4), (7, 3), (8, 2),
   (9, 1)]

/-- A concrete index ranking ten documents. -/
def tenIndex : Index where
  ranked _ := rankedTen
  get_page ids := ids.map
    (fun i => { id := i, text := "t", cosine_sim := none, sentences := [] })

/-- The engine state produced by constructing over `tenIndex` with
start = 2 and num_top = 5: exactly the documents at ranks 2, 3 and 4. -/
def sampleInitResult : AnswerEngine where
  query := "war"
  start := 2
  num_top := 5
  lch := 216 / 100
  answers := none
  ir_query := ["war"]
  ir_query_tagged := none
  num_pages := 10
  pages := [{ id := 2, text := "t", cosine_sim := some 8, sentences := [] },
            { id := 3, text := "t", cosine_sim := some 7, sentences := [] },
            { id := 4, text := "t", cosine_sim := some 6, sentences := [] }]

/-- Witness for C2: the pages of the concretely constructed engine over ten
ranked documents with start = 2 and num_top = 5. -/
theorem constructor_window_absolute_end_witness :
    sampleInitResult.pages = setSims
      (tenIndex.get_page
        ((rankedWindow tenIndex (sampleEnv.regularize (sampleEnv.tokenize
          "war")) 2 5).map Prod.fst))
      ((rankedWindow tenIndex (sampleEnv.regularize (sampleEnv.tokenize
        "war")) 2 5).map Prod.snd) :=
  (constructor_window_absolute_end sampleEnv tenIndex "war" 2 5
    (216 / 100)).2 sampleInitResult rfl

/-- C10: construction fails exactly when the windowed slice is empty, that
is when min num_top (number of ranked documents) does not exceed start; a
window that is merely shorter than requested but non-empty succeeds. -/
theorem init_fails_iff_empty_window (env : Env) (index : Index)
    (query : String) (start num_top : Nat) (lch : ℚ) :
    (∃ err, AnswerEngine.init env index query start num_top lch =
        Except.error err) ↔
      min num_top
        (index.ranked (env.regularize (env.tokenize query))).length ≤
        start := by
  have hchar :
      rankedWindow index (env.regularize (env.tokenize query)) start
          num_top = [] ↔
        min num_top
          (index.ranked (env.regularize (env.tokenize query))).length ≤
          start := by
    rw [rankedWindow, pySlice, List.drop_eq_nil_iff, List.length_take]
  cases hw : rankedWindow index (env.regularize (env.tokenize query)) start
      num_top with
  | nil =>
      rw [← hchar, hw]
      simp [AnswerEngine.init, hw]
  | cons w ws =>
      rw [← hchar, hw]
      simp [AnswerEngine.init, hw]

/-- A concrete index that ranks no documents at all. -/
def emptyIndex : Index where
  ranked _ := []
  get_page _ := []

/-- A concrete index ranking three documents, fewer than a requested window
of ten. -/
def threeIndex : Index where
  ranked _ := [(0, 3), (1, 2), (2, 1)]
  get_page ids := ids.map
    (fun i => { id := i, text := "t", cosine_sim := none, sentences := [] })

/-- C6 counterexample: an index ranking three documents, fewer than the
requested window of ten implies, does not make the constructor fail at all;
and when the constructor does fail (no ranked documents), the failure is
the unspecific unpack error, not the descriptive pagination error the
claim asserts. -/
theorem init_error_unspecific_counterexample :
    (AnswerEngine.init sampleEnv threeIndex "war" 0 10
        (216 / 100)).isOk = true ∧
      AnswerEngine.init sampleEnv emptyIndex "war" 0 10 (216 / 100) =
        Except.error InitError.valueErrorUnpack ∧
      InitError.valueErrorUnpack ≠
        InitError.paginationWindowExceedsAvailable := by
  refine ⟨rfl, rfl, by decide⟩

/-- C6 (amended): whenever the constructor fails, the failure is the
unspecific unpack error raised by zip on the empty window; the descriptive
typed pagination error the specification proposes is never raised. -/
theorem init_error_is_unspecific (env : Env) (index : Index)
    (query : String) (start num_top : Nat) (lch : ℚ) (err : InitError)
    (h : AnswerEngine.init env index query start num_top lch =
      Except.error err) :
    err = InitError.valueErrorUnpack := by
  unfold AnswerEngine.init at h
  cases hw : rankedWindow index (env.regularize (env.tokenize query)) start
      num_top with
  | nil =>
      rw [hw] at h
      simp only [Except.error.injEq] at h
      exact h.symm
  | cons w ws =>
      rw [hw] at h
      exact absurd h (by simp)

/-- Witness for C6 amended: the concrete failing construction over the
empty index raises exactly the unspecific unpack error. -/
theorem init_error_is_unspecific_witness :
    AnswerEngine.init sampleEnv emptyIndex "war" 0 10 (216 / 100) =
        Except.error InitError.valueErrorUnpack ∧
      InitError.valueErrorUnpack = InitError.valueErrorUnpack :=
  ⟨rfl,
   init_error_is_unspecific sampleEnv emptyIndex "war" 0 10 (216 / 100)
     InitError.valueErrorUnpack rfl⟩

/-! ### Extraction order and idempotence -/

/-- The per-page accumulation equals the matching sentences, filtered in
order and turned into Answers. -/
theorem pageAnswers_eq_filter_map (env : Env) (thr : ℚ)
    (tagged : List (String × List Sense)) (page : Page) :
    pageAnswers env thr tagged page =
      (page.sentences.filter
        (fun s => sentence_matches env thr tagged s)).map
        (fun s => Answer.mk page (String.intercalate " " s)) := by
  have h : ∀ (l : List (List String)) (acc : List Answer),
      l.foldl
        (fun pw sentence =>
          if sentence_matches env thr tagged sentence then
            pw ++ [Answer.mk page (String.intercalate " " sentence)]
          else pw) acc =
        acc ++ (l.filter (fun s => sentence_matches env thr tagged s)).map
          (fun s => Answer.mk page (String.intercalate " " s)) := by
    intro l
    induction l with
    | nil => intro acc; simp
    | cons s rest ih =>
        intro acc
        cases hs : sentence_matches env thr tagged s <;>
          simp [List.filter_cons, hs, ih]
  simpa [pageAnswers] using h page.sentences []

/-- The page loop accumulation starting from any prefix equals that prefix
followed by the extraction from scratch. -/
theorem extract_answers_acc (env : Env) (thr : ℚ)
    (tagged : List (String × List Sense)) (pages : List Page)
    (acc : List Answer) :
    pages.foldl (fun answers page => answers ++ pageAnswers env thr tagged
        page) acc =
      acc ++ extract_answers env thr tagged pages := by
  induction pages generalizing acc with
  | nil => simp [extract_answers]
  | cons p rest ih =>
      rw [extract_answers, List.foldl_cons, List.foldl_cons, ih,
        List.nil_append, ih, List.append_assoc]

/-- C8: extraction respects the rank order of the page list and the
sentence order inside each page: it distributes over any split of the page
list, so all answers of an earlier (higher ranked) page precede all answers
of a later page, and a single page contributes exactly its matching
sentences in occurrence order. -/
theorem extract_answers_rank_then_sentence_order (env : Env) (thr : ℚ)
    (tagged : List (String × List Sense)) :
    (∀ ps qs : List Page,
        extract_answers env thr tagged (ps ++ qs) =
          extract_answers env thr tagged ps ++
            extract_answers env thr tagged qs) ∧
      ∀ p : Page,
        extract_answers env thr tagged [p] =
          (p.sentences.filter
            (fun s => sentence_matches env thr tagged s)).map
            (fun s => Answer.mk p (String.intercalate " " s)) := by
  constructor
  · intro ps qs
    rw [extract_answers, List.foldl_append, ← extract_answers,
      extract_answers_acc]
  · intro p
    rw [extract_answers, List.foldl_cons, List.foldl_nil, List.nil_append,
      pageAnswers_eq_filter_map]

/-- Analyzing a page twice equals analyzing it once when the preprocessing
step is idempotent (its documented contract). -/
theorem pageAnalyze_idem (env : Env)
    (hpp : ∀ s, env.preprocessText (env.preprocessText s) =
      env.preprocessText s) (p : Page) :
    pageAnalyze env (pageAnalyze env p) = pageAnalyze env p := by
  simp [pageAnalyze, hpp]

/-- C9: with the deterministic collaborators of the model and an idempotent
preprocessing step, calling get_answers again on the engine state left by a
first call returns the same answer list. -/
theorem get_answers_idempotent (env : Env) (e : AnswerEngine)
    (hpp : ∀ s, env.preprocessText (env.preprocessText s) =
      env.preprocessText s) :
    (AnswerEngine.get_answers env
        (AnswerEngine.get_answers env e).1).2 =
      (AnswerEngine.get_answers env e).2 := by
  have hmap : ∀ p : Page,
      (pageAnalyze env ∘ pageAnalyze env) p = pageAnalyze env p :=
    fun p => pageAnalyze_idem env hpp p
  simp only [AnswerEngine.get_answers, List.map_map]
  rw [List.map_congr_left (fun p _ => hmap p)]

/-- A concrete engine state used to instantiate the idempotence theorem. -/
def sampleEngine : AnswerEngine where
  query := "war"
  start := 0
  num_top := 10
  lch := 216 / 100
  answers := none
  ir_query := ["war"]
  ir_query_tagged := none
  num_pages := 1
  pages := [{ id := 0, text := "war cause", cosine_sim := some 1,
              sentences := [] }]

/-- Witness for C9: idempotence of get_answers at the concrete sample
environment and engine. -/
theorem get_answers_idempotent_witness :
    (AnswerEngine.get_answers sampleEnv
        (AnswerEngine.get_answers sampleEnv sampleEngine).1).2 =
      (AnswerEngine.get_answers sampleEnv sampleEngine).2 :=
  get_answers_idempotent sampleEnv sampleEngine (fun _ => rfl)
